import Mathlib

/-!
# Verification of the iRODS CSI driver node service

Shallow embedding of the node-service publish/unpublish logic of the
irods-csi-driver repository (`node.go`): request validation, mount-option
merging, per-backend connection extraction, mount-spec construction, and
the publish/unpublish orchestration with its side-effect ordering.

External side-effecting primitives (directory creation, the mount syscall
wrapper, directory removal, mount-table queries, unmount) are modelled as
oracle results carried in an environment record, and the side effects the
orchestrator performs are recorded as an explicit event trace.
-/

namespace IrodsCsi

/-- gRPC status categories used by the node service (`codes.InvalidArgument`,
`codes.Internal` are the only ones produced by the publish/unpublish paths). -/
inductive StatusError where
  | invalidArgument (msg : String)
  | internal (msg : String)
  deriving Repr, DecidableEq

/-- The `VolumeCapability_MountVolume` message: the mount-specific capability data,
carrying the caller-supplied mount flags. -/
structure MountCapability where
  mountFlags : List String
  deriving Repr, DecidableEq

/-- A volume capability. `mount` is `none` when `GetMount()` returns nil.
`supported` models `driver.isValidVolumeCapabilities` (see below). -/
structure VolumeCapability where
  supported : Bool
  mount : Option MountCapability
  deriving Repr, DecidableEq

/-- A `NodePublishVolumeRequest`: volume id, target path, capability,
read-only flag, volume context and secrets (string-to-string maps, embedded
as association lists). -/
structure PublishRequest where
  volumeId : String
  targetPath : String
  volumeCapability : Option VolumeCapability
  readOnly : Bool
  volumeContext : List (String × String)
  secrets : List (String × String)
  deriving Repr, DecidableEq

/-- The direct-backend (iRODS FUSE) connection descriptor
(`IRODSConnection` in the repository). -/
structure IRODSConnection where
  User : String
  Password : String
  Hostname : String
  Port : Int
  Zone : String
  Path : String
  deriving Repr, DecidableEq

/-- The WebDAV connection descriptor. -/
structure WebDAVConnection where
  URL : String
  User : String
  Password : String
  deriving Repr, DecidableEq

/-- The NFS connection descriptor. -/
structure NFSConnection where
  Hostname : String
  Path : String
  Port : Int
  deriving Repr, DecidableEq

/-- The argument bundle handed to `mounter.MountSensitive2`: source, target,
filesystem type, non-sensitive options, sensitive options, stdin inputs. -/
structure MountSpec where
  source : String
  target : String
  fsType : String
  mountOptions : List String
  mountSensitiveOptions : List String
  stdinArgs : List String
  deriving Repr, DecidableEq

/-- External side effects performed by the orchestrator, in order. -/
inductive Event where
  | makeDir (path : String)
  | removePath (path : String)
  | mount (spec : MountSpec)
  | unmount (path : String)
  deriving Repr, DecidableEq

/-- Oracle results for the side-effecting collaborator primitives consumed by
`NodePublishVolume`.  `removeResult` is the outcome of `os.Remove`, which the
source discards, so the orchestrator never reads it. -/
structure DriverEnv where
  makeDirResult : Except String Unit
  mountResult : Except String Unit
  removeResult : Except String Unit
  deriving Repr

/-- Oracle results for the collaborator primitives consumed by
`NodeUnpublishVolume`: the `GetDeviceName` mount-table query
(device name and reference count) and the `Unmount` primitive. -/
structure UnpublishEnv where
  getDeviceResult : Except String (String × Nat)
  unmountResult : Except String Unit
  deriving Repr

instance exceptDecEq {e a : Type} [DecidableEq e] [DecidableEq a] :
    DecidableEq (Except e a) := fun x y =>
  match x, y with
  | .ok v, .ok w =>
    if h : v = w then .isTrue (by rw [h]) else .isFalse (by simp [h])
  | .error v, .error w =>
    if h : v = w then .isTrue (by rw [h]) else .isFalse (by simp [h])
  | .ok _, .error _ => .isFalse (by simp)
  | .error _, .ok _ => .isFalse (by simp)

/-! ## Mount-option merging (`NodePublishVolume`, lines 84-103) -/

/-- The `hasOption` closure of `NodePublishVolume`: linear scan for an equal
option string. -/
def hasOption (options : List String) (opt : String) : Bool :=
  options.any (fun o => o == opt)

/-- The mount-flag loop of `NodePublishVolume`: append each flag to the
accumulated options unless an equal option is already present. -/
def mergeFlags (acc : List String) : List String → List String
  | [] => acc
  | f :: rest =>
    if hasOption acc f then mergeFlags acc rest
    else mergeFlags (acc ++ [f]) rest

/-- The generic mount-option list of `NodePublishVolume`: start from `["ro"]`
when the read-only flag is set, then merge the caller-supplied mount flags. -/
def buildMountOptions (readOnly : Bool) (mountFlags : List String) : List String :=
  mergeFlags (if readOnly then ["ro"] else []) mountFlags

/-- The mount flags carried by a capability (`volCap.GetMount().MountFlags`,
empty when `GetMount()` is nil). -/
def capMountFlags (c : VolumeCapability) : List String :=
  match c.mount with
  | some m => m.mountFlags
  | none => []

/-- Modelled from the spec: `driver.isValidVolumeCapabilities` is not part of
the sources at hand; the spec only says an unsupported volume capability is
rejected with `InvalidArgument` without enumerating the supported set, so
support is an abstract boolean attached to each capability. -/
def isValidVolumeCapabilities (caps : List VolumeCapability) : Bool :=
  caps.all (fun c => c.supported)

/-! ## Backend selection and connection extraction

The extractor functions (`ExtractIRODSClientType`, `ExtractIRODSConnection`,
`ExtractIRODSWebDAVConnection`, `ExtractIRODSNFSConnection`) live in a
repository file outside the sources at hand; they are modelled from the
spec's Parameter Extractor and Backend Selector contracts. -/

/-- Modelled from the spec: the direct-backend client type constant
(`FuseType`); the client type is a string tag. -/
def FuseType : String := "irodsfuse"

/-- Modelled from the spec: the WebDAV client type constant (`WebdavType`). -/
def WebdavType : String := "webdav"

/-- Modelled from the spec: the NFS client type constant (`NfsType`). -/
def NfsType : String := "nfs"

/-- Key lowering, `strings.ToLower` (character-wise ASCII lowering; structural
recursion over the character list so terms reduce). -/
def lowerKey (s : String) : String :=
  String.mk (s.toList.map Char.toLower)

/-- Decimal digit accumulation for `strconv.Atoi`. -/
def parseDigits : Option Nat → List Char → Option Nat
  | acc, [] => acc
  | acc, c :: rest =>
    if c.isDigit then
      parseDigits (acc.map (fun n => n * 10 + (c.toNat - 48))) rest
    else none

/-- Port parsing, `strconv.Atoi`: an optional sign followed by at least
one decimal digit. -/
def parsePort (s : String) : Option Int :=
  match s.toList with
  | [] => none
  | '-' :: rest =>
    match rest with
    | [] => none
    | _ => (parseDigits (some 0) rest).map (fun n => -(n : Int))
  | l => (parseDigits (some 0) l).map (fun n => (n : Int))

/-- Case-insensitive key lookup in a context/secret map: first entry whose
lowercased key equals `key` (which is given already lowercased). -/
def lookupCI (m : List (String × String)) (key : String) : Option String :=
  (m.find? (fun kv => lowerKey kv.1 == key)).map Prod.snd

/-- Field resolution across the two maps: the value from secrets wins when
the key is present there, otherwise the context's value is used. -/
def resolveField (ctx secrets : List (String × String)) (key : String) : Option String :=
  match lookupCI secrets key with
  | some v => some v
  | none => lookupCI ctx key

/-- The `InvalidArgument` text for an unsupported volume-context key
(`"Volume context property %s not supported"`). -/
def unsupportedKeyMessage (k : String) : String :=
  s!"Volume context property {k} not supported"

/-- Modelled from the spec: `ExtractIRODSClientType` (Backend Selector) is
not part of the sources at hand.  Selection is driven by an explicit
discriminator field in the volume context (the spec does not name the key;
`client` is used here, matched case-insensitively); absence of the field
falls back to the supplied default; the value is returned verbatim so that
an unknown value reaches the dispatch switch and is named in its error. -/
def ExtractIRODSClientType (volContext : List (String × String)) (defaultType : String) : String :=
  volContext.foldl (fun acc kv => if lowerKey kv.1 == "client" then kv.2 else acc) defaultType

/-- The direct-backend context/secret keys consumed by the connection
extractor (the backend discriminator included); `ticket` is handled
afterwards by `mountFuse` itself. -/
def fuseConsumedKeys : List String :=
  ["user", "password", "host", "port", "zone", "path", "client"]

/-- Modelled from the spec: `ExtractIRODSConnection` is not part of the
sources at hand.  It resolves the direct-backend fields case-insensitively
from the two maps (secrets take precedence), fails with `InvalidArgument`
when a required field (user, host, port, zone, path) is missing or empty or
when the port is not a number, and consumes the recognized keys from the
context, returning the residual context that `mountFuse` then polices. -/
def ExtractIRODSConnection (ctx secrets : List (String × String)) :
    Except StatusError (IRODSConnection × List (String × String)) :=
  let user := (resolveField ctx secrets "user").getD ""
  let password := (resolveField ctx secrets "password").getD ""
  let hostname := (resolveField ctx secrets "host").getD ""
  let portStr := (resolveField ctx secrets "port").getD ""
  let zone := (resolveField ctx secrets "zone").getD ""
  let path := (resolveField ctx secrets "path").getD ""
  if user.length == 0 then
    .error (.invalidArgument "Argument user must not be empty")
  else if hostname.length == 0 then
    .error (.invalidArgument "Argument host must not be empty")
  else if portStr.length == 0 then
    .error (.invalidArgument "Argument port must not be empty")
  else if zone.length == 0 then
    .error (.invalidArgument "Argument zone must not be empty")
  else if path.length == 0 then
    .error (.invalidArgument "Argument path must not be empty")
  else
    match parsePort portStr with
    | none => .error (.invalidArgument s!"Argument port must be a number - {portStr}")
    | some port =>
      .ok ({ User := user, Password := password, Hostname := hostname,
             Port := port, Zone := zone, Path := path },
           ctx.filter (fun kv => !(fuseConsumedKeys.contains (lowerKey kv.1))))

/-- The WebDAV context allow-list (backend discriminator included). -/
def webdavAllowedKeys : List String := ["url", "user", "password", "client"]

/-- Modelled from the spec: `ExtractIRODSWebDAVConnection` is not part of the
sources at hand.  Any context key off the WebDAV allow-list is a hard
`InvalidArgument`; fields resolve case-insensitively with secrets taking
precedence; `url` is required non-empty, user and password are optional. -/
def ExtractIRODSWebDAVConnection (ctx secrets : List (String × String)) :
    Except StatusError WebDAVConnection :=
  match ctx.find? (fun kv => !(webdavAllowedKeys.contains (lowerKey kv.1))) with
  | some kv => .error (.invalidArgument (unsupportedKeyMessage kv.1))
  | none =>
    let url := (resolveField ctx secrets "url").getD ""
    let user := (resolveField ctx secrets "user").getD ""
    let password := (resolveField ctx secrets "password").getD ""
    if url.length == 0 then
      .error (.invalidArgument "Argument url must not be empty")
    else
      .ok { URL := url, User := user, Password := password }

/-- The NFS context allow-list (backend discriminator included). -/
def nfsAllowedKeys : List String := ["host", "path", "port", "client"]

/-- Modelled from the spec: `ExtractIRODSNFSConnection` is not part of the
sources at hand.  Any context key off the NFS allow-list is a hard
`InvalidArgument`; `host` and `path` are required non-empty; `port` is
optional and defaults to the protocol's standard port 2049. -/
def ExtractIRODSNFSConnection (ctx secrets : List (String × String)) :
    Except StatusError NFSConnection :=
  match ctx.find? (fun kv => !(nfsAllowedKeys.contains (lowerKey kv.1))) with
  | some kv => .error (.invalidArgument (unsupportedKeyMessage kv.1))
  | none =>
    let hostname := (resolveField ctx secrets "host").getD ""
    let path := (resolveField ctx secrets "path").getD ""
    let portStr := (resolveField ctx secrets "port").getD ""
    if hostname.length == 0 then
      .error (.invalidArgument "Argument host must not be empty")
    else if path.length == 0 then
      .error (.invalidArgument "Argument path must not be empty")
    else if portStr.length == 0 then
      .ok { Hostname := hostname, Path := path, Port := 2049 }
    else
      match parsePort portStr with
      | none => .error (.invalidArgument s!"Argument port must be a number - {portStr}")
      | some port => .ok { Hostname := hostname, Path := path, Port := port }

/-! ## Mount-spec construction (`mountFuse`, `mountWebdav`, `mountNfs`) -/

/-- Path trimming, `strings.Trim(path, "/")`: strip leading and trailing slash characters. -/
def trimSlashes (s : String) : String :=
  String.mk (((s.toList.dropWhile (fun c => c == '/')).reverse.dropWhile
      (fun c => c == '/')).reverse)

/-- The `volContext` loop of `mountFuse` over the residual context: a
`ticket` key (case-insensitive) updates the ticket, any other key fails with
`InvalidArgument` naming the key. -/
def scanContextTicket (t : String) : List (String × String) → Except StatusError String
  | [] => .ok t
  | kv :: rest =>
    if lowerKey kv.1 == "ticket" then scanContextTicket kv.2 rest
    else .error (.invalidArgument (unsupportedKeyMessage kv.1))

/-- The `volSecrets` loop of `mountFuse`: a `ticket` key (case-insensitive)
overrides the ticket, every other key is silently ignored. -/
def ticketFromSecrets (t : String) (secrets : List (String × String)) : String :=
  secrets.foldl (fun acc kv => if lowerKey kv.1 == "ticket" then kv.2 else acc) t

/-- The `ticket=...` sensitive option string of `mountFuse`. -/
def ticketOption (t : String) : String := s!"ticket={t}"

/-- The `username=...` sensitive option string of `mountWebdav`. -/
def userOption (u : String) : String := s!"username={u}"

/-- The `port=...` option string of `mountNfs`. -/
def portOption (p : Int) : String := s!"port={p}"

/-- The composed direct-backend source URI of `mountFuse`:
`irods://user@host:port/zone/path` with the path's slashes trimmed. -/
def fuseSource (conn : IRODSConnection) : String :=
  let u := conn.User
  let h := conn.Hostname
  let p := conn.Port
  let z := conn.Zone
  let pa := trimSlashes conn.Path
  s!"irods://{u}@{h}:{p}/{z}/{pa}"

/-- The mount-spec construction part of `mountFuse` (lines 222-264): extract
the connection, police the residual context for a ticket, resolve the ticket
override from secrets, and assemble source, options, sensitive options and
stdin inputs.  The password always becomes the single stdin input. -/
def buildFuseMountSpec (volContext volSecrets : List (String × String))
    (mntOptions : List String) (targetPath : String) : Except StatusError MountSpec :=
  match ExtractIRODSConnection volContext volSecrets with
  | .error e => .error e
  | .ok (irodsConn, residual) =>
    match scanContextTicket "" residual with
    | .error e => .error e
    | .ok ticketCtx =>
      let ticket := ticketFromSecrets ticketCtx volSecrets
      .ok { source := fuseSource irodsConn
            target := targetPath
            fsType := "irodsfs"
            mountOptions := [] ++ mntOptions
            mountSensitiveOptions :=
              if ticket.length > 0 then [ticketOption ticket] else []
            stdinArgs := [irodsConn.Password] }

/-- The mount-spec construction part of `mountWebdav` (lines 274-292): the
source is the literal URL; user and password become a sensitive option and a
stdin input only when both are non-empty. -/
def buildWebdavMountSpec (volContext volSecrets : List (String × String))
    (mntOptions : List String) (targetPath : String) : Except StatusError MountSpec :=
  match ExtractIRODSWebDAVConnection volContext volSecrets with
  | .error e => .error e
  | .ok irodsConn =>
    .ok { source := irodsConn.URL
          target := targetPath
          fsType := "davfs"
          mountOptions := [] ++ mntOptions
          mountSensitiveOptions :=
            if irodsConn.User.length > 0 && irodsConn.Password.length > 0 then
              [userOption irodsConn.User]
            else []
          stdinArgs :=
            if irodsConn.User.length > 0 && irodsConn.Password.length > 0 then
              [irodsConn.Password]
            else [] }

/-- The mount-spec construction part of `mountNfs` (lines 302-319): the
source is `host:path`; a `port=` option is appended only when the port
differs from 2049; no sensitive options and no stdin inputs. -/
def buildNfsMountSpec (volContext volSecrets : List (String × String))
    (mntOptions : List String) (targetPath : String) : Except StatusError MountSpec :=
  match ExtractIRODSNFSConnection volContext volSecrets with
  | .error e => .error e
  | .ok irodsConn =>
    let h := irodsConn.Hostname
    let pa := irodsConn.Path
    .ok { source := s!"{h}:{pa}"
          target := targetPath
          fsType := "nfs"
          mountOptions :=
            ([] ++ mntOptions) ++
              (if irodsConn.Port != 2049 then [portOption irodsConn.Port] else [])
          mountSensitiveOptions := []
          stdinArgs := [] }

/-- Backend dispatch of the `switch irodsClient` in `NodePublishVolume`:
`some` of the backend's mount-spec construction for a recognized client
type, `none` for an unknown one (the `default` arm). -/
def buildClientSpec (client : String) (ctx secrets : List (String × String))
    (mntOptions : List String) (targetPath : String) :
    Option (Except StatusError MountSpec) :=
  if client == FuseType then some (buildFuseMountSpec ctx secrets mntOptions targetPath)
  else if client == WebdavType then some (buildWebdavMountSpec ctx secrets mntOptions targetPath)
  else if client == NfsType then some (buildNfsMountSpec ctx secrets mntOptions targetPath)
  else none

/-! ## Publish/unpublish orchestration -/

/-- Error text of `NodePublishVolume` on a directory-creation failure
(`"Could not create dir %q: %v"`). -/
def makeDirErrorMessage (target err : String) : String :=
  s!"Could not create dir {target}: {err}"

/-- Error text of the mount helpers on a mount-primitive failure
(`"Could not mount %q (%q) at %q: %v"`). -/
def mountErrorMessage (spec : MountSpec) (err : String) : String :=
  let src := spec.source
  let fs := spec.fsType
  let tp := spec.target
  s!"Could not mount {src} ({fs}) at {tp}: {err}"

/-- Error text of the `default` arm of the backend dispatch
(`"unknown driver type - %v"`). -/
def unknownDriverMessage (client : String) : String :=
  s!"unknown driver type - {client}"

/-- The post-validation body of `NodePublishVolume` (lines 84-141): build the
generic mount options, select the backend, create the target directory, run
the selected backend's mount, and on any failure past directory creation
remove the directory again (the `os.Remove` outcome is discarded). -/
def publishCore (env : DriverEnv) (req : PublishRequest) (volCap : VolumeCapability) :
    Except StatusError Unit × List Event :=
  let mountOptions := buildMountOptions req.readOnly (capMountFlags volCap)
  let irodsClient := ExtractIRODSClientType req.volumeContext FuseType
  match env.makeDirResult with
  | .error e =>
    (.error (.internal (makeDirErrorMessage req.targetPath e)), [.makeDir req.targetPath])
  | .ok _ =>
    match buildClientSpec irodsClient req.volumeContext req.secrets mountOptions req.targetPath with
    | none =>
      (.error (.internal (unknownDriverMessage irodsClient)),
       [.makeDir req.targetPath, .removePath req.targetPath])
    | some (.error e) =>
      (.error e, [.makeDir req.targetPath, .removePath req.targetPath])
    | some (.ok spec) =>
      match env.mountResult with
      | .error e =>
        (.error (.internal (mountErrorMessage spec e)),
         [.makeDir req.targetPath, .mount spec, .removePath req.targetPath])
      | .ok _ =>
        (.ok (), [.makeDir req.targetPath, .mount spec])

/-- The `NodePublishVolume` handler (lines 60-141): request-field validation followed by
`publishCore`.  The result pairs the gRPC outcome with the ordered trace of
external side effects performed. -/
def NodePublishVolume (env : DriverEnv) (req : PublishRequest) :
    Except StatusError Unit × List Event :=
  if req.volumeId.length == 0 then
    (.error (.invalidArgument "Volume ID not provided"), [])
  else if req.targetPath.length == 0 then
    (.error (.invalidArgument "Target path not provided"), [])
  else
    match req.volumeCapability with
    | none => (.error (.invalidArgument "Volume capability not provided"), [])
    | some volCap =>
      if !(isValidVolumeCapabilities [volCap]) then
        (.error (.invalidArgument "Volume capability not supported"), [])
      else
        publishCore env req volCap

/-- The `NodeUnpublishVolume` handler (lines 144-184): validate the ids, query the mount
reference count, return success immediately when it is zero, otherwise
unmount once. -/
def NodeUnpublishVolume (env : UnpublishEnv) (volumeId target : String) :
    Except StatusError Unit × List Event :=
  if volumeId.length == 0 then
    (.error (.invalidArgument "Volume ID not provided"), [])
  else if target.length == 0 then
    (.error (.invalidArgument "Target path not provided"), [])
  else
    match env.getDeviceResult with
    | .error e =>
      (.error (.internal s!"failed to check if volume is mounted: {e}"), [])
    | .ok (_, refCount) =>
      if refCount == 0 then (.ok (), [])
      else
        match env.unmountResult with
        | .error e =>
          (.error (.internal s!"Could not unmount {target}: {e}"), [.unmount target])
        | .ok _ => (.ok (), [.unmount target])

/-! ## Lemmas about the option merge -/

theorem hasOption_iff_mem (l : List String) (x : String) :
    hasOption l x = true ↔ x ∈ l := by
  simp [hasOption, List.any_eq_true]

theorem mem_mergeFlags_of_mem_acc (fs : List String) :
    ∀ acc a, a ∈ acc → a ∈ mergeFlags acc fs := by
  induction fs with
  | nil => intro acc a h; simpa [mergeFlags] using h
  | cons f rest ih =>
    intro acc a h
    by_cases hf : hasOption acc f = true
    · simpa [mergeFlags, hf] using ih acc a h
    · have : a ∈ acc ++ [f] := List.mem_append_left _ h
      simpa [mergeFlags, hf] using ih (acc ++ [f]) a this

theorem mem_mergeFlags_of_mem_flags (fs : List String) :
    ∀ acc a, a ∈ fs → a ∈ mergeFlags acc fs := by
  induction fs with
  | nil => intro acc a h; cases h
  | cons f rest ih =>
    intro acc a h
    rcases List.mem_cons.mp h with rfl | htail
    · by_cases hf : hasOption acc a = true
      · have := mem_mergeFlags_of_mem_acc rest acc a ((hasOption_iff_mem acc a).mp hf)
        simpa [mergeFlags, hf] using this
      · have ha : a ∈ acc ++ [a] := List.mem_append_right _ (List.mem_singleton.mpr rfl)
        have := mem_mergeFlags_of_mem_acc rest (acc ++ [a]) a ha
        simpa [mergeFlags, hf] using this
    · by_cases hf : hasOption acc f = true
      · simpa [mergeFlags, hf] using ih acc a htail
      · simpa [mergeFlags, hf] using ih (acc ++ [f]) a htail

theorem mergeFlags_nodup (fs : List String) :
    ∀ acc, acc.Nodup → (mergeFlags acc fs).Nodup := by
  induction fs with
  | nil => intro acc h; simpa [mergeFlags] using h
  | cons f rest ih =>
    intro acc hacc
    by_cases hf : hasOption acc f = true
    · simpa [mergeFlags, hf] using ih acc hacc
    · have hnotmem : f ∉ acc := fun hm => hf ((hasOption_iff_mem acc f).mpr hm)
      have happ : (acc ++ [f]).Nodup := by
        refine List.Nodup.append hacc (List.nodup_singleton f) ?_
        intro a ha hb
        rcases List.mem_singleton.mp hb with rfl
        exact hnotmem ha
      simpa [mergeFlags, hf] using ih (acc ++ [f]) happ

theorem mergeFlags_eq_of_subset (fs : List String) :
    ∀ acc, (∀ a ∈ fs, a ∈ acc) → mergeFlags acc fs = acc := by
  induction fs with
  | nil => intro acc _; rfl
  | cons f rest ih =>
    intro acc h
    have hf : hasOption acc f = true :=
      (hasOption_iff_mem acc f).mpr (h f (List.mem_cons_self f rest))
    have := ih acc (fun a ha => h a (List.mem_cons_of_mem f ha))
    simpa [mergeFlags, hf] using this

/-- **C6.** The generic mount-option list is built by first adding `ro` when
the read-only flag is set and then appending each caller-supplied mount flag
only when an equal option is not already present (first occurrence wins,
later duplicates are dropped), so the result never contains duplicate
entries and merging the same flag list again changes nothing (idempotent
merge). -/
theorem c6_mount_option_merge (readOnly : Bool) (mountFlags : List String) :
    (buildMountOptions readOnly mountFlags).Nodup ∧
      mergeFlags (buildMountOptions readOnly mountFlags) mountFlags =
        buildMountOptions readOnly mountFlags := by
  constructor
  · refine mergeFlags_nodup mountFlags _ ?_
    cases readOnly <;> simp
  · exact mergeFlags_eq_of_subset mountFlags _
      (fun a ha => mem_mergeFlags_of_mem_flags mountFlags _ a ha)

/-! ## Unpublish idempotence (C4) -/

/-- The Go guard `len(s) == 0` is false exactly on non-empty strings. -/
theorem length_beq_zero_eq_false (s : String) (h : s ≠ "") :
    (s.length == 0) = false := by
  cases s with
  | mk data =>
    cases data with
    | nil => exact absurd rfl h
    | cons c cs => simp [String.length]

/-- **C4.** For every Unpublish request with non-empty volume id and target
path whose mount reference count at the target is 0, the call returns
success and the unmount primitive is never invoked (the event trace is
empty), whatever the unmount oracle would have answered. -/
theorem c4_unpublish_idempotent (env : UnpublishEnv) (volumeId target d : String)
    (h1 : volumeId ≠ "") (h2 : target ≠ "")
    (h3 : env.getDeviceResult = .ok (d, 0)) :
    NodeUnpublishVolume env volumeId target = (.ok (), []) := by
  have h1' : (volumeId.length == 0) = false := length_beq_zero_eq_false _ h1
  have h2' : (target.length == 0) = false := length_beq_zero_eq_false _ h2
  simp [NodeUnpublishVolume, h1', h2', h3]

theorem c4_unpublish_idempotent_witness :
    NodeUnpublishVolume ⟨.ok ("dev", 0), .error "unmount would fail"⟩ "vol1" "/target"
      = (.ok (), []) :=
  c4_unpublish_idempotent ⟨.ok ("dev", 0), .error "unmount would fail"⟩
    "vol1" "/target" "dev" (by decide) (by decide) rfl

/-! ## The direct-backend scenario (C2) -/

/-- Volume context of the spec's direct-backend scenario. -/
def scenarioContext : List (String × String) :=
  [("host", "data.example.org"), ("user", "alice"), ("port", "1247"),
   ("zone", "tempZone"), ("path", "/tempZone/home/alice")]

/-- Volume secrets of the spec's direct-backend scenario. -/
def scenarioSecrets : List (String × String) := [("password", "pw123")]

/-- The mount spec the code actually builds for the scenario. -/
def scenarioSpec : MountSpec :=
  { source := "irods://alice@data.example.org:1247/tempZone/tempZone/home/alice"
    target := "/target"
    fsType := "irodsfs"
    mountOptions := []
    mountSensitiveOptions := []
    stdinArgs := ["pw123"] }

/-- **C2, counterexample.** On the scenario input the built source is
`irods://alice@data.example.org:1247/tempZone/tempZone/home/alice` — the
zone appears twice, because the caller's path already begins with the zone
and `mountFuse` composes `irods://user@host:port/{zone}/{trimmed path}` —
so it is not the claimed
`irods://alice@data.example.org:1247/tempZone/home/alice`. -/
theorem c2_direct_scenario_cex :
    buildFuseMountSpec scenarioContext scenarioSecrets [] "/target" = .ok scenarioSpec ∧
      scenarioSpec.source ≠ "irods://alice@data.example.org:1247/tempZone/home/alice" :=
  ⟨by decide, by decide⟩

/-- **C2, amended.** For the direct backend with the scenario context and
secret, the built MountSpec has source
`irods://alice@data.example.org:1247/tempZone/tempZone/home/alice` (the
composed URI `scheme://user@host:port/zone/path` with the path's
leading/trailing slashes trimmed — the zone segment repeats because the
given path itself starts with the zone), stdin inputs exactly `["pw123"]`,
and an empty sensitive-option list. -/
theorem c2_direct_scenario_amended :
    buildFuseMountSpec scenarioContext scenarioSecrets [] "/target" = .ok scenarioSpec ∧
      scenarioSpec.source = "irods://alice@data.example.org:1247/tempZone/tempZone/home/alice" ∧
      scenarioSpec.stdinArgs = ["pw123"] ∧
      scenarioSpec.mountSensitiveOptions = [] :=
  ⟨by decide, rfl, rfl, rfl⟩

/-! ## Publish orchestration lemmas -/

/-- The guard `len("") == 0` holds, for reducing the validation branches on empty strings. -/
theorem empty_length_beq : (("" : String).length == 0) = true := rfl

/-- Whether a node-service result is an `InvalidArgument` error. -/
def isInvalidArg {α : Type} : Except StatusError α → Bool
  | .error (.invalidArgument _) => true
  | _ => false

/-- Once the request fields pass validation, `NodePublishVolume` is
`publishCore`. -/
theorem nodePublish_valid (env : DriverEnv) (req : PublishRequest)
    (volCap : VolumeCapability)
    (h1 : req.volumeId ≠ "") (h2 : req.targetPath ≠ "")
    (h3 : req.volumeCapability = some volCap)
    (h4 : isValidVolumeCapabilities [volCap] = true) :
    NodePublishVolume env req = publishCore env req volCap := by
  have h1' := length_beq_zero_eq_false _ h1
  have h2' := length_beq_zero_eq_false _ h2
  simp [NodePublishVolume, h1', h2', h3, h4]

/-- The environment used by the concrete publish scenarios: directory
creation, mount and removal all succeed. -/
def okEnv : DriverEnv := ⟨.ok (), .ok (), .ok ()⟩

/-- A publish request that passes field validation but carries no
connection fields at all, so direct-backend extraction fails. -/
def reqNoConn : PublishRequest :=
  ⟨"vol1", "/target", some ⟨true, none⟩, false, [], []⟩

/-- A publish request that passes field validation and carries an unknown
backend discriminator. -/
def reqUnknownClient : PublishRequest :=
  ⟨"vol1", "/target", some ⟨true, none⟩, false, [("client", "badtype")], []⟩

/-- **C1, counterexample.** A Publish request with valid ids and capability
but no connection fields fails extraction (`InvalidArgument`, missing
required field `user`), yet the target directory *was* created first — the
event trace is `[makeDir, removePath]`, not `[]` — because
`NodePublishVolume` calls `MakeDir` before the per-backend extraction runs
inside `mountFuse`.  This refutes the claim that no target directory is
created (and none needs removal) when extraction fails. -/
theorem c1_fail_fast_cex :
    NodePublishVolume okEnv reqNoConn =
      (.error (.invalidArgument "Argument user must not be empty"),
       [.makeDir "/target", .removePath "/target"]) ∧
      Event.makeDir "/target" ∈ (NodePublishVolume okEnv reqNoConn).2 :=
  ⟨rfl, by decide⟩

/-- **C1, amended.** Request-field validation errors (missing volume id,
missing target path, missing or unsupported capability) are detected and
reported before any external side effect (the event trace is empty); but a
validation or extraction error arising in the per-backend parameter
extraction is reported only after the target directory has been created,
and the orchestrator then removes the just-created directory, so an
extraction failure leaves a `makeDir` followed by a `removePath` in the
side-effect trace. -/
theorem c1_fail_fast_amended (env : DriverEnv) (req : PublishRequest)
    (volCap : VolumeCapability) (e : StatusError) :
    ((req.volumeId = "" ∨ req.targetPath = "" ∨ req.volumeCapability = none ∨
        (req.volumeCapability = some volCap ∧ isValidVolumeCapabilities [volCap] = false)) →
      (NodePublishVolume env req).2 = []) ∧
    (req.volumeId ≠ "" → req.targetPath ≠ "" →
      req.volumeCapability = some volCap →
      isValidVolumeCapabilities [volCap] = true →
      env.makeDirResult = .ok () →
      buildClientSpec (ExtractIRODSClientType req.volumeContext FuseType)
          req.volumeContext req.secrets
          (buildMountOptions req.readOnly (capMountFlags volCap)) req.targetPath
        = some (.error e) →
      NodePublishVolume env req =
        (.error e, [.makeDir req.targetPath, .removePath req.targetPath])) := by
  constructor
  · intro h
    rcases h with h | h | h | ⟨hc, hv⟩
    · simp [NodePublishVolume, h, empty_length_beq]
    · by_cases h1 : (req.volumeId.length == 0) = true
      · simp [NodePublishVolume, h1]
      · simp [NodePublishVolume, h1, h, empty_length_beq]
    · by_cases h1 : (req.volumeId.length == 0) = true
      · simp [NodePublishVolume, h1]
      · by_cases h2 : (req.targetPath.length == 0) = true
        · simp [NodePublishVolume, h1, h2]
        · simp [NodePublishVolume, h1, h2, h]
    · by_cases h1 : (req.volumeId.length == 0) = true
      · simp [NodePublishVolume, h1]
      · by_cases h2 : (req.targetPath.length == 0) = true
        · simp [NodePublishVolume, h1, h2]
        · simp [NodePublishVolume, h1, h2, hc, hv]
  · intro h1 h2 h3 h4 h5 h6
    rw [nodePublish_valid env req volCap h1 h2 h3 h4]
    simp [publishCore, h5, h6]

theorem c1_fail_fast_amended_witness :
    (NodePublishVolume okEnv ⟨"", "/target", some ⟨true, none⟩, false, [], []⟩).2 = [] ∧
      NodePublishVolume okEnv reqNoConn =
        (.error (.invalidArgument "Argument user must not be empty"),
         [.makeDir "/target", .removePath "/target"]) :=
  ⟨(c1_fail_fast_amended okEnv ⟨"", "/target", some ⟨true, none⟩, false, [], []⟩
      ⟨true, none⟩ (.internal "unused")).1 (Or.inl rfl),
   (c1_fail_fast_amended okEnv reqNoConn ⟨true, none⟩
      (.invalidArgument "Argument user must not be empty")).2
      (by decide) (by decide) rfl rfl rfl rfl⟩

/-- **C3, counterexample.** A Publish request whose backend discriminator is
the unrecognized value `badtype` fails with an `Internal` error (`unknown
driver type - badtype`), not with `InvalidArgument` as claimed; the
directory is created and removed, and no mount is attempted. -/
theorem c3_unknown_driver_cex :
    NodePublishVolume okEnv reqUnknownClient =
      (.error (.internal "unknown driver type - badtype"),
       [.makeDir "/target", .removePath "/target"]) ∧
      isInvalidArg (NodePublishVolume okEnv reqUnknownClient).1 = false :=
  ⟨rfl, rfl⟩

/-- **C3, amended.** For every Publish request (passing field validation,
with the target directory created) whose backend-discriminator value is not
one of the recognized backend kinds, the call fails with an `Internal`
error that identifies the offending value (`unknown driver type - <value>`),
and no mount is attempted: the side-effect trace is exactly the directory
creation followed by its removal, with no mount event. -/
theorem c3_unknown_driver_amended (env : DriverEnv) (req : PublishRequest)
    (volCap : VolumeCapability)
    (h1 : req.volumeId ≠ "") (h2 : req.targetPath ≠ "")
    (h3 : req.volumeCapability = some volCap)
    (h4 : isValidVolumeCapabilities [volCap] = true)
    (h5 : env.makeDirResult = .ok ())
    (h6 : buildClientSpec (ExtractIRODSClientType req.volumeContext FuseType)
        req.volumeContext req.secrets
        (buildMountOptions req.readOnly (capMountFlags volCap)) req.targetPath = none) :
    NodePublishVolume env req =
      (.error (.internal (unknownDriverMessage
          (ExtractIRODSClientType req.volumeContext FuseType))),
       [.makeDir req.targetPath, .removePath req.targetPath]) := by
  rw [nodePublish_valid env req volCap h1 h2 h3 h4]
  simp [publishCore, h5, h6]

theorem c3_unknown_driver_amended_witness :
    NodePublishVolume okEnv reqUnknownClient =
      (.error (.internal (unknownDriverMessage "badtype")),
       [.makeDir "/target", .removePath "/target"]) :=
  c3_unknown_driver_amended okEnv reqUnknownClient ⟨true, none⟩
    (by decide) (by decide) rfl rfl rfl rfl

/-- A field-valid publish request whose direct-backend extraction succeeds,
used to exercise the mount-failure path concretely. -/
def reqFuseOk : PublishRequest :=
  ⟨"vol1", "/target", some ⟨true, none⟩, false,
   [("host", "h"), ("user", "u"), ("port", "1247"), ("zone", "z"), ("path", "/z/home")],
   [("password", "pw")]⟩

/-- The mount spec built for `reqFuseOk`. -/
def reqFuseOkSpec : MountSpec :=
  ⟨"irods://u@h:1247/z/z/home", "/target", "irodsfs", [], [], ["pw"]⟩

/-- **C9.** For every Publish request that reaches the mount step (fields
valid, directory created, backend spec built): if the mount primitive
fails, the orchestrator removes the target directory as best-effort cleanup
(the trace ends with `removePath` after the `mount` attempt), the returned
error is the original mount error wrapped as `Internal`, and the outcome is
unaffected by the removal oracle's own result (cleanup failures are not
surfaced: `removeResult` never influences the output); if the mount
primitive succeeds, an empty success response is returned. -/
theorem c9_mount_failure_cleanup (env : DriverEnv) (req : PublishRequest)
    (volCap : VolumeCapability) (spec : MountSpec) (e : String)
    (r : Except String Unit)
    (h1 : req.volumeId ≠ "") (h2 : req.targetPath ≠ "")
    (h3 : req.volumeCapability = some volCap)
    (h4 : isValidVolumeCapabilities [volCap] = true)
    (h5 : env.makeDirResult = .ok ())
    (h6 : buildClientSpec (ExtractIRODSClientType req.volumeContext FuseType)
        req.volumeContext req.secrets
        (buildMountOptions req.readOnly (capMountFlags volCap)) req.targetPath
      = some (.ok spec)) :
    (env.mountResult = .error e →
      NodePublishVolume env req =
        (.error (.internal (mountErrorMessage spec e)),
         [.makeDir req.targetPath, .mount spec, .removePath req.targetPath])) ∧
    (env.mountResult = .ok () →
      NodePublishVolume env req = (.ok (), [.makeDir req.targetPath, .mount spec])) ∧
    NodePublishVolume { env with removeResult := r } req = NodePublishVolume env req := by
  refine ⟨?_, ?_, ?_⟩
  · intro hm
    rw [nodePublish_valid env req volCap h1 h2 h3 h4]
    simp [publishCore, h5, h6, hm]
  · intro hm
    rw [nodePublish_valid env req volCap h1 h2 h3 h4]
    simp [publishCore, h5, h6, hm]
  · obtain ⟨md, mt, rm⟩ := env
    rw [nodePublish_valid _ req volCap h1 h2 h3 h4,
        nodePublish_valid _ req volCap h1 h2 h3 h4]
    rfl

theorem c9_mount_failure_cleanup_witness :
    NodePublishVolume ⟨.ok (), .error "boom", .ok ()⟩ reqFuseOk =
      (.error (.internal (mountErrorMessage reqFuseOkSpec "boom")),
       [.makeDir "/target", .mount reqFuseOkSpec, .removePath "/target"]) ∧
    NodePublishVolume ⟨.ok (), .error "boom", .error "cleanup failed"⟩ reqFuseOk =
      NodePublishVolume ⟨.ok (), .error "boom", .ok ()⟩ reqFuseOk ∧
    NodePublishVolume okEnv reqFuseOk = (.ok (), [.makeDir "/target", .mount reqFuseOkSpec]) :=
  ⟨(c9_mount_failure_cleanup ⟨.ok (), .error "boom", .ok ()⟩ reqFuseOk ⟨true, none⟩
      reqFuseOkSpec "boom" (.error "cleanup failed")
      (by decide) (by decide) rfl rfl rfl rfl).1 rfl,
   (c9_mount_failure_cleanup ⟨.ok (), .error "boom", .ok ()⟩ reqFuseOk ⟨true, none⟩
      reqFuseOkSpec "boom" (.error "cleanup failed")
      (by decide) (by decide) rfl rfl rfl rfl).2.2,
   (c9_mount_failure_cleanup okEnv reqFuseOk ⟨true, none⟩
      reqFuseOkSpec "boom" (.ok ())
      (by decide) (by decide) rfl rfl rfl rfl).2.1 rfl⟩

/-! ## Mount-spec builder invariants (C5, C7, C10) -/

/-- **C5.** For every backend and every context/secret input, the
non-sensitive option list of the built MountSpec is exactly the
caller-supplied generic option list — except that the NFS backend may
append a single `port=` option derived from the (non-secret-listed) port
field.  Consequently no secret-sourced value (ticket, password, or the
WebDAV user paired with a password) ever enters the non-sensitive option
list: those values are only ever placed in the sensitive-option list or
the stdin-input list. -/
theorem c5_no_secret_in_plain_options (client : String)
    (ctx secrets : List (String × String)) (opts : List String) (tp : String)
    (spec : MountSpec)
    (h : buildClientSpec client ctx secrets opts tp = some (.ok spec)) :
    spec.mountOptions = opts ∨
      ∃ p : Int, p ≠ 2049 ∧ spec.mountOptions = opts ++ [portOption p] := by
  unfold buildClientSpec at h
  split_ifs at h with hf hw hn
  · left
    replace h := Option.some.inj h
    unfold buildFuseMountSpec at h
    split at h
    · exact absurd h (by simp)
    · split at h
      · exact absurd h (by simp)
      · simp only [Except.ok.injEq] at h
        subst h
        simp
  · left
    replace h := Option.some.inj h
    unfold buildWebdavMountSpec at h
    split at h
    · exact absurd h (by simp)
    · simp only [Except.ok.injEq] at h
      subst h
      simp
  · replace h := Option.some.inj h
    unfold buildNfsMountSpec at h
    split at h
    · exact absurd h (by simp)
    · rename_i conn heq
      simp only [Except.ok.injEq] at h
      subst h
      by_cases hp : (conn.Port != 2049) = true
      · right
        refine ⟨conn.Port, ?_, by simp [hp]⟩
        simpa using hp
      · left
        simp at hp
        simp [hp]

theorem c5_no_secret_in_plain_options_witness :
    buildClientSpec "irodsfuse"
        [("host", "h"), ("user", "u"), ("port", "1247"), ("zone", "z"),
         ("path", "/z/home"), ("TICKET", "secret-ticket")]
        [("password", "pw")] ["ro"] "/target"
      = some (.ok ⟨"irods://u@h:1247/z/z/home", "/target", "irodsfs", ["ro"],
                   ["ticket=secret-ticket"], ["pw"]⟩) ∧
    (MountSpec.mountOptions ⟨"irods://u@h:1247/z/z/home", "/target", "irodsfs", ["ro"],
        ["ticket=secret-ticket"], ["pw"]⟩ = ["ro"] ∨
      ∃ p : Int, p ≠ 2049 ∧
        MountSpec.mountOptions ⟨"irods://u@h:1247/z/z/home", "/target", "irodsfs", ["ro"],
          ["ticket=secret-ticket"], ["pw"]⟩ = ["ro"] ++ [portOption p]) :=
  ⟨rfl,
   c5_no_secret_in_plain_options "irodsfuse"
     [("host", "h"), ("user", "u"), ("port", "1247"), ("zone", "z"),
      ("path", "/z/home"), ("TICKET", "secret-ticket")]
     [("password", "pw")] ["ro"] "/target" _ rfl⟩

/-- **C7.** For the WebDAV backend, credential handling is both-or-nothing:
when both user and password are non-empty the user becomes the (single)
sensitive option and the password the (single) stdin input, and when at
least one of the two is empty no credential option and no stdin input is
added at all. -/
theorem c7_webdav_both_or_nothing (ctx secrets : List (String × String))
    (opts : List String) (tp : String) (conn : WebDAVConnection) (spec : MountSpec)
    (hconn : ExtractIRODSWebDAVConnection ctx secrets = .ok conn)
    (h : buildWebdavMountSpec ctx secrets opts tp = .ok spec) :
    ((0 < conn.User.length ∧ 0 < conn.Password.length) →
        spec.mountSensitiveOptions = [userOption conn.User] ∧
        spec.stdinArgs = [conn.Password]) ∧
    (¬(0 < conn.User.length ∧ 0 < conn.Password.length) →
        spec.mountSensitiveOptions = [] ∧ spec.stdinArgs = []) := by
  unfold buildWebdavMountSpec at h
  rw [hconn] at h
  simp only [Except.ok.injEq] at h
  subst h
  constructor
  · intro hb
    have hcond : (conn.User.length > 0 && conn.Password.length > 0) = true := by
      simp [hb.1, hb.2]
    simp [hcond]
  · intro hb
    have hcond : (conn.User.length > 0 && conn.Password.length > 0) = false := by
      rcases Decidable.not_and_iff_or_not.mp hb with hu | hp
      · simp [Nat.not_lt, Nat.le_zero] at hu
        simp [hu]
      · simp [Nat.not_lt, Nat.le_zero] at hp
        simp [hp]
    simp [hcond]

theorem c7_webdav_both_or_nothing_witness :
    ExtractIRODSWebDAVConnection [("url", "https://dav.example.org/")]
        [("user", "alice"), ("password", "pw")]
      = .ok ⟨"https://dav.example.org/", "alice", "pw"⟩ ∧
    buildWebdavMountSpec [("url", "https://dav.example.org/")]
        [("user", "alice"), ("password", "pw")] [] "/target"
      = .ok ⟨"https://dav.example.org/", "/target", "davfs", [],
             ["username=alice"], ["pw"]⟩ ∧
    MountSpec.mountSensitiveOptions
        ⟨"https://dav.example.org/", "/target", "davfs", [], ["username=alice"], ["pw"]⟩
      = [userOption "alice"] :=
  ⟨rfl, rfl,
   ((c7_webdav_both_or_nothing [("url", "https://dav.example.org/")]
       [("user", "alice"), ("password", "pw")] [] "/target"
       ⟨"https://dav.example.org/", "alice", "pw"⟩
       ⟨"https://dav.example.org/", "/target", "davfs", [], ["username=alice"], ["pw"]⟩
       rfl rfl).1 (by decide)).1⟩

/-- **C10.** For every direct-backend publish that reaches the mount step,
the stdin-input list of the built MountSpec is exactly the one-element list
holding the extracted password — even when that password is the empty
string, in which case a single empty string is still supplied. -/
theorem c10_fuse_stdin_password (ctx secrets : List (String × String))
    (opts : List String) (tp : String) (conn : IRODSConnection)
    (residual : List (String × String)) (spec : MountSpec)
    (hconn : ExtractIRODSConnection ctx secrets = .ok (conn, residual))
    (h : buildFuseMountSpec ctx secrets opts tp = .ok spec) :
    spec.stdinArgs = [conn.Password] ∧ spec.stdinArgs.length = 1 := by
  unfold buildFuseMountSpec at h
  rw [hconn] at h
  split at h
  · exact absurd h (by simp)
  · rename_i irodsConn res heq
    injection heq with heq
    injection heq with hcn hres
    subst hcn
    subst hres
    split at h
    · exact absurd h (by simp)
    · simp only [Except.ok.injEq] at h
      subst h
      simp

theorem c10_fuse_stdin_password_witness :
    ExtractIRODSConnection
        [("host", "h"), ("user", "u"), ("port", "1247"), ("zone", "z"), ("path", "/z/home")] []
      = .ok (⟨"u", "", "h", 1247, "z", "/z/home"⟩, []) ∧
    buildFuseMountSpec
        [("host", "h"), ("user", "u"), ("port", "1247"), ("zone", "z"), ("path", "/z/home")]
        [] [] "/target"
      = .ok ⟨"irods://u@h:1247/z/z/home", "/target", "irodsfs", [], [], [""]⟩ ∧
    MountSpec.stdinArgs ⟨"irods://u@h:1247/z/z/home", "/target", "irodsfs", [], [], [""]⟩
      = [""] :=
  ⟨rfl, rfl,
   by
    have := (c10_fuse_stdin_password
      [("host", "h"), ("user", "u"), ("port", "1247"), ("zone", "z"), ("path", "/z/home")]
      [] [] "/target" ⟨"u", "", "h", 1247, "z", "/z/home"⟩ []
      ⟨"irods://u@h:1247/z/z/home", "/target", "irodsfs", [], [], [""]⟩ rfl rfl).1
    simp at this
    simp [this]⟩

/-! ## Context allow-list and secret tolerance (C8) -/

/-- The full direct-backend context allow-list: the keys the connection
extractor consumes plus the `ticket` key handled by `mountFuse`. -/
def fuseAllowedContextKeys : List String := fuseConsumedKeys ++ ["ticket"]

/-- The secret keys the direct backend reads (connection fields plus the
ticket override); every other secret key is ignored. -/
def fuseSecretKeys : List String :=
  ["user", "password", "host", "port", "zone", "path", "ticket"]

theorem contains_eq_false_of_not_mem (l : List String) (a : String) (h : a ∉ l) :
    l.contains a = false := by
  cases hc : l.contains a
  · rfl
  · exact absurd (List.mem_of_elem_eq_true hc) h

/-- Every failure of the modelled connection extractor is an
`InvalidArgument`. -/
theorem extractConnection_error_invalidArg
    {ctx secrets : List (String × String)} {e : StatusError}
    (h : ExtractIRODSConnection ctx secrets = .error e) :
    ∃ m, e = .invalidArgument m := by
  simp only [ExtractIRODSConnection] at h
  split_ifs at h <;>
    first
      | exact ⟨_, (Except.error.inj h).symm⟩
      | (split at h
         · exact ⟨_, (Except.error.inj h).symm⟩
         · exact absurd h (by simp))

/-- On success the modelled connection extractor returns exactly the context
entries whose (lowercased) key it did not consume. -/
theorem extractConnection_ok_residual
    {ctx secrets : List (String × String)} {conn : IRODSConnection}
    {residual : List (String × String)}
    (h : ExtractIRODSConnection ctx secrets = .ok (conn, residual)) :
    residual = ctx.filter (fun kv => !(fuseConsumedKeys.contains (lowerKey kv.1))) := by
  simp only [ExtractIRODSConnection] at h
  split_ifs at h
  split at h
  · exact Except.noConfusion h
  · simp only [Except.ok.injEq, Prod.mk.injEq] at h
    exact h.2.symm

/-- The `mountFuse` context loop fails with `InvalidArgument` whenever the
scanned list holds any entry whose key is not `ticket`. -/
theorem scanContextTicket_error_of_bad_key :
    ∀ (l : List (String × String)) (t : String) (kv : String × String),
      kv ∈ l → (lowerKey kv.1 == "ticket") = false →
      ∃ m, scanContextTicket t l = .error (.invalidArgument m) := by
  intro l
  induction l with
  | nil => intro t kv hm; cases hm
  | cons x rest ih =>
    intro t kv hm hk
    by_cases hx : (lowerKey x.1 == "ticket") = true
    · rcases List.mem_cons.mp hm with rfl | hm'
      · exact absurd hx (by simp [hk])
      · have := ih x.2 kv hm' hk
        simpa [scanContextTicket, hx] using this
    · refine ⟨unsupportedKeyMessage x.1, ?_⟩
      simp only [Bool.not_eq_true] at hx
      simp [scanContextTicket, hx]

theorem find?_append_singleton_of_neg {α : Type} (p : α → Bool) (l : List α) (x : α)
    (hx : p x = false) : (l ++ [x]).find? p = l.find? p := by
  induction l with
  | nil => simp [List.find?, hx]
  | cons a rest ih =>
    by_cases ha : p a = true
    · simp [List.find?_cons, ha]
    · simp only [Bool.not_eq_true] at ha
      simp [List.find?_cons, ha, ih]

theorem lookupCI_append_of_neg (secrets : List (String × String)) (k v key : String)
    (hk : (lowerKey k == key) = false) :
    lookupCI (secrets ++ [(k, v)]) key = lookupCI secrets key := by
  unfold lookupCI
  rw [find?_append_singleton_of_neg _ secrets (k, v) (by simpa using hk)]

theorem resolveField_append_of_neg (ctx secrets : List (String × String))
    (k v key : String) (hk : (lowerKey k == key) = false) :
    resolveField ctx (secrets ++ [(k, v)]) key = resolveField ctx secrets key := by
  unfold resolveField
  rw [lookupCI_append_of_neg secrets k v key hk]

theorem ticketFromSecrets_append_of_neg (secrets : List (String × String))
    (k v : String) (hk : (lowerKey k == "ticket") = false) (t : String) :
    ticketFromSecrets t (secrets ++ [(k, v)]) = ticketFromSecrets t secrets := by
  have hk' : lowerKey k ≠ "ticket" := by simpa using hk
  simp [ticketFromSecrets, List.foldl_append, hk']

theorem extractConnection_append_of_unrecognized
    (ctx secrets : List (String × String)) (k v : String)
    (hne : ∀ key ∈ fuseSecretKeys, (lowerKey k == key) = false) :
    ExtractIRODSConnection ctx (secrets ++ [(k, v)]) = ExtractIRODSConnection ctx secrets := by
  have hu := resolveField_append_of_neg ctx secrets k v "user"
    (hne "user" (by simp [fuseSecretKeys]))
  have hpw := resolveField_append_of_neg ctx secrets k v "password"
    (hne "password" (by simp [fuseSecretKeys]))
  have hh := resolveField_append_of_neg ctx secrets k v "host"
    (hne "host" (by simp [fuseSecretKeys]))
  have hpo := resolveField_append_of_neg ctx secrets k v "port"
    (hne "port" (by simp [fuseSecretKeys]))
  have hz := resolveField_append_of_neg ctx secrets k v "zone"
    (hne "zone" (by simp [fuseSecretKeys]))
  have hpa := resolveField_append_of_neg ctx secrets k v "path"
    (hne "path" (by simp [fuseSecretKeys]))
  unfold ExtractIRODSConnection
  rw [hu, hpw, hh, hpo, hz, hpa]

/-- **C8.** During direct-backend extraction, every context key off the
backend's (case-insensitively matched) allow-list makes the mount-spec
construction fail with `InvalidArgument`, whereas appending an unrecognized
key to the secrets leaves the construction's result unchanged (unrecognized
secret keys are silently ignored). -/
theorem c8_context_allowlist_secrets_ignored
    (ctx secrets : List (String × String)) (opts : List String) (tp : String)
    (kv : String × String) (k v : String) :
    (kv ∈ ctx → lowerKey kv.1 ∉ fuseAllowedContextKeys →
      isInvalidArg (buildFuseMountSpec ctx secrets opts tp) = true) ∧
    (lowerKey k ∉ fuseSecretKeys →
      buildFuseMountSpec ctx (secrets ++ [(k, v)]) opts tp =
        buildFuseMountSpec ctx secrets opts tp) := by
  constructor
  · intro hmem hnot
    cases hc : ExtractIRODSConnection ctx secrets with
    | error e =>
      obtain ⟨m, rfl⟩ := extractConnection_error_invalidArg hc
      simp [buildFuseMountSpec, hc, isInvalidArg]
    | ok pair =>
      obtain ⟨conn, residual⟩ := pair
      have hres := extractConnection_ok_residual hc
      have hnc : lowerKey kv.1 ∉ fuseConsumedKeys := by
        intro hmc
        exact hnot (by simp [fuseAllowedContextKeys, List.mem_append, hmc])
      have hkv_res : kv ∈ residual := by
        rw [hres]
        refine List.mem_filter.mpr ⟨hmem, ?_⟩
        simpa using hnc
      have hticket : (lowerKey kv.1 == "ticket") = false := by
        cases hb : (lowerKey kv.1 == "ticket")
        · rfl
        · exact absurd
            (by
              rw [eq_of_beq hb]
              simp [fuseAllowedContextKeys])
            hnot
      obtain ⟨m, hscan⟩ := scanContextTicket_error_of_bad_key residual "" kv hkv_res hticket
      simp [buildFuseMountSpec, hc, hscan, isInvalidArg]
  · intro hnk
    have hne : ∀ key ∈ fuseSecretKeys, (lowerKey k == key) = false := by
      intro key hkey
      cases hb : (lowerKey k == key)
      · rfl
      · exact absurd (by rw [eq_of_beq hb]; exact hkey) hnk
    have hconn := extractConnection_append_of_unrecognized ctx secrets k v hne
    have htix := ticketFromSecrets_append_of_neg secrets k v
      (hne "ticket" (by simp [fuseSecretKeys]))
    simp only [buildFuseMountSpec, hconn, htix]

theorem c8_context_allowlist_secrets_ignored_witness :
    (("bogus", "1") ∈ [(("bogus" : String), ("1" : String))] ∧
      lowerKey "bogus" ∉ fuseAllowedContextKeys ∧
      lowerKey "note" ∉ fuseSecretKeys) ∧
    isInvalidArg (buildFuseMountSpec [("bogus", "1")] [] [] "/t") = true ∧
    buildFuseMountSpec
        [("host", "h"), ("user", "u"), ("port", "1247"), ("zone", "z"), ("path", "/z/home")]
        ([("password", "pw")] ++ [("note", "x")]) [] "/t" =
      buildFuseMountSpec
        [("host", "h"), ("user", "u"), ("port", "1247"), ("zone", "z"), ("path", "/z/home")]
        [("password", "pw")] [] "/t" :=
  ⟨⟨by decide, by decide, by decide⟩,
   (c8_context_allowlist_secrets_ignored [("bogus", "1")] [] [] "/t"
      ("bogus", "1") "note" "x").1 (by decide) (by decide),
   (c8_context_allowlist_secrets_ignored
      [("host", "h"), ("user", "u"), ("port", "1247"), ("zone", "z"), ("path", "/z/home")]
      [("password", "pw")] [] "/t" ("bogus", "1") "note" "x").2 (by decide)⟩

end IrodsCsi
